import Mathlib

/-
Verification of the forum-monitor program (src/main.py) against its
natural-language specification.

The embedding is shallow: each Python function of the monitor/dedup core is
translated into a Lean definition over explicit state.  External effects
(filesystem, HTTP, the rendered page) are modelled as explicit inputs:
the state file as a `FileState`, the outcome of one HTTP POST as a
`SendResult`, one rendered thread element as a `ThreadElement` recording
which selectors matched, and the current fallback clock reading as a
`String` argument.
-/

namespace RaidPing

/-! ## Configuration constants (src/main.py lines 12-29, 168) -/

def DISCORD_FORUM_URL : String :=
  "https://discord.com/channels/1000384021542469632/1303601992169426995"

def MAX_SEEN_THREADS : Nat := 20

def FOOTER_TEXT : String := "brought to you by arle."

def FOOTER_ICON : String := "https://i.imgur.com/JdlwG9w.jpeg"

def USERNAME : String := "Arlecchino"

/-- The hard-coded excluded thread id compared against on line 168 of
src/main.py (the "announcements" thread). -/
def BLOCKED_THREAD_ID : String := "1303609863024148602"

/-! ## Python list and string primitives used by the source -/

/-- Python `l[-n:]` for `n ≥ 1`: the last `n` entries of `l` (all of `l`
when it is shorter).  Used by `save_seen_threads` (line 44 of src/main.py). -/
def takeLast (n : Nat) (l : List String) : List String :=
  l.drop (l.length - n)

/-- Python `str.strip()`: remove leading and trailing whitespace. -/
def strip (s : String) : String :=
  ⟨((s.data.dropWhile Char.isWhitespace).reverse.dropWhile Char.isWhitespace).reverse⟩

/-! ## SeenStore: load_seen_threads / save_seen_threads (lines 32-48) -/

/-- The observable states of the durable seen-threads file as far as
`load_seen_threads` distinguishes them: the file may be absent
(`os.path.exists` false), opening or reading it may raise, `json.load`
may raise on malformed content, or it parses to the stored list of ids. -/
inductive FileState where
  | absent
  | unreadable
  | malformed
  | stored (ids : List String)
deriving DecidableEq

/-- `load_seen_threads` (src/main.py lines 32-39): returns `[]` when the
file is absent, and catches every exception from opening or parsing it,
returning `[]`; otherwise it returns the parsed list. -/
def load_seen_threads : FileState → List String
  | .absent => []
  | .unreadable => []
  | .malformed => []
  | .stored ids => ids

/-- `save_seen_threads` (src/main.py lines 41-48), parametrized by the
truncation bound (the source fixes it to `MAX_SEEN_THREADS = 20`) and by
whether the disk write succeeds.  The in-place slice assignment
`seen_list[:] = seen_list[-MAX_SEEN_THREADS:]` truncates the caller's
in-memory list *before* the file is opened, so the first component
(the in-memory list after the call) is truncated even when the write
raises; a raise is caught and only logged, so the old file contents
survive in that case (second component). -/
def save_seen_threads (maxSeen : Nat) (writeOk : Bool)
    (seen_list file : List String) : List String × List String :=
  let truncated := takeLast maxSeen seen_list
  (truncated, if writeOk then truncated else file)

/-- One "record" of an id, as performed by `forum_monitor_loop`
(src/main.py lines 170-171 and 180-181): `seen_threads.append(thread_id)`
followed by `save_seen_threads(seen_threads)`.  State is the pair
(in-memory list, persisted file contents). -/
def record_seen (maxSeen : Nat) (writeOk : Bool)
    (st : List String × List String) (id : String) : List String × List String :=
  save_seen_threads maxSeen writeOk (st.1 ++ [id]) st.2

/-! ## Webhook delivery: send_payload (lines 51-58) -/

/-- Outcome of the `requests.post` call inside `send_payload`: either a
response with an HTTP status code, or a raised exception. -/
inductive SendResult where
  | status (code : Nat)
  | raised
deriving DecidableEq

/-- `send_payload` (src/main.py lines 51-58): returns the status code of
the response, or `none` when `requests.post` raised (the exception is
caught and only logged).  It is a total function: no delivery outcome
propagates an error to the caller. -/
def send_payload : SendResult → Option Nat
  | .status code => some code
  | .raised => none

/-! ## Extraction: extract_thread_data (lines 61-108) -/

/-- One rendered thread element as `extract_thread_data` observes it:
for each selector probe, the inner text / attribute found (or `none` when
the selector matched nothing), and whether the surrounding interaction
raised (in which case the whole extraction returns `None`).
`containerId` is the `data-item-id` attribute of the inner
`div[data-item-id]` container when that selector matches. -/
structure ThreadElement where
  titleEl : Option String
  authorEl : Option String
  messageEl : Option String
  containerId : Option String
  timeEl : Option String
  raises : Bool
deriving DecidableEq

/-- The dictionary returned by `extract_thread_data` (lines 98-105). -/
structure ThreadData where
  id : Option String
  title : String
  author : String
  content : String
  url : String
  timestamp : String
deriving DecidableEq

/-- `extract_thread_data` (src/main.py lines 61-108).  `now` is the
fallback timestamp string `datetime.utcnow().isoformat() + "Z"` computed
at line 96.  Missing title / author / preview selectors default to
"Untitled Thread" / "Unknown" / ""; a missing `data-item-id` container
leaves `id = none` and an empty url; an empty or missing `datetime`
attribute falls back to `now`.  Any exception makes the function return
`None` (line 106-108). -/
def extract_thread_data (now : String) (el : ThreadElement) : Option ThreadData :=
  if el.raises then none else
  some {
    id := el.containerId
    title := strip (el.titleEl.getD "Untitled Thread")
    author := strip (el.authorEl.getD "Unknown")
    content := strip (el.messageEl.getD "")
    url := match el.containerId with
      | some tid => DISCORD_FORUM_URL ++ "/threads/" ++ tid
      | none => ""
    timestamp := match el.timeEl with
      | some t => if t = "" then now else t
      | none => now }

/-! ## Payload construction: post_new_thread_webhook (lines 111-139) -/

structure DiscordEmbed where
  title : String
  description : String
  footer_text : String
  footer_icon : String
deriving DecidableEq

structure WebhookPayload where
  username : String
  content : String
  embeds : List DiscordEmbed
deriving DecidableEq

/-- The payload built by `post_new_thread_webhook` (src/main.py lines
111-137).  `rolePing` models the optional `ROLE_PING_ID` environment
value; Python's truthiness test makes both an unset and an empty value
suppress the mention.  The embed's constant `"timestamp": None` field is
elided.  The function then hands the payload to `send_payload`. -/
def post_new_thread_webhook (rolePing : Option String) (td : ThreadData) : WebhookPayload :=
  let content_preview := strip td.content
  let mention := match rolePing with
    | some r => if r = "" then "" else "<@&" ++ r ++ ">"
    | none => ""
  { username := USERNAME
    content := mention
    embeds := [{
      title := td.title
      description := if content_preview = "" then "No preview available." else content_preview
      footer_text := FOOTER_TEXT
      footer_icon := FOOTER_ICON }] }

/-! ## The per-candidate step of forum_monitor_loop (lines 159-181) -/

/-- Id resolution at lines 163-166 of src/main.py: `thread_data.get("id")`
is falsy (absent or empty), the id becomes
`f"fallback:{hash(url + title)}"`.  `pyHash` models Python's built-in
`hash` on strings: an arbitrary function fixed for one process run. -/
def resolve_thread_id (pyHash : String → Int) (td : ThreadData) : String :=
  match td.id with
  | some tid =>
    if tid = "" then "fallback:" ++ toString (pyHash (td.url ++ td.title)) else tid
  | none => "fallback:" ++ toString (pyHash (td.url ++ td.title))

/-- The monitor state threaded through the loop: the in-memory
`seen_threads` list, the persisted file contents, and the sequence of
webhook send attempts made so far (each recorded as the resolved thread
id together with the payload handed to `send_payload`). -/
structure MState where
  seen : List String
  file : List String
  sent : List (String × WebhookPayload)
deriving DecidableEq

/-- Everything one iteration of the `for thread_el in thread_elements`
body depends on besides the monitor state: the rendered element, the
clock reading used for the timestamp fallback, the network outcome of
the webhook POST were one attempted, and whether the state-file write
would succeed. -/
structure CandidateInput where
  el : ThreadElement
  now : String
  net : SendResult
  writeOk : Bool
deriving DecidableEq

/-- The body of the per-candidate loop of `forum_monitor_loop`
(src/main.py lines 159-181): extract (skip the element when extraction
returned `None`), resolve the id, short-circuit the blocked id (record,
no webhook), skip ids already in `seen_threads`, otherwise build and
send the webhook payload and record the id. -/
def process_thread (pyHash : String → Int) (rolePing : Option String)
    (st : MState) (c : CandidateInput) : MState :=
  match extract_thread_data c.now c.el with
  | none => st
  | some td =>
    let tid := resolve_thread_id pyHash td
    if tid = BLOCKED_THREAD_ID then
      let r := record_seen MAX_SEEN_THREADS c.writeOk (st.seen, st.file) tid
      { seen := r.1, file := r.2, sent := st.sent }
    else if tid ∈ st.seen then
      st
    else
      let payload := post_new_thread_webhook rolePing td
      let _status := send_payload c.net
      let r := record_seen MAX_SEEN_THREADS c.writeOk (st.seen, st.file) tid
      { seen := r.1, file := r.2, sent := st.sent ++ [(tid, payload)] }

/-- The candidate loop over one cycle's `thread_elements` (and, by
concatenation, over any number of cycles: the inter-cycle sleeps,
scrolls and reloads do not touch the monitor state). -/
def run_cycle (pyHash : String → Int) (rolePing : Option String)
    (inputs : List CandidateInput) (st : MState) : MState :=
  inputs.foldl (process_thread pyHash rolePing) st

/-- The resolved id a candidate presents, when extraction succeeds. -/
def candId (pyHash : String → Int) (c : CandidateInput) : Option String :=
  (extract_thread_data c.now c.el).map (resolve_thread_id pyHash)

/-- Whether some candidate in the list presents the id `tid`. -/
def presentsId (pyHash : String → Int) (inputs : List CandidateInput)
    (tid : String) : Bool :=
  inputs.any (fun c => candId pyHash c == some tid)

/-- Number of webhook send attempts made for the id `tid`. -/
def countSent (st : MState) (tid : String) : Nat :=
  (st.sent.map Prod.fst).count tid

/-! ## Exception dispatch of the outer while-loop (lines 147-212) -/

/-- The exceptions the outer `try` of `forum_monitor_loop` can see,
classified by the handler chain at lines 207-212.  Playwright's
`TimeoutError` (raised by `wait_for_selector` at line 150 when the
thread container does not render within the 15000 ms timeout) is a
subclass of the imported `playwright.async_api.Error`
(`PlaywrightError`), so it is matched by the first handler. -/
inductive PException where
  | timeoutError
  | playwrightError
  | otherError
deriving DecidableEq

/-- Which exceptions `except PlaywrightError` (line 207) matches:
`playwright.async_api.TimeoutError` inherits from
`playwright.async_api.Error`, so a selector timeout is matched too. -/
def is_playwright_error : PException → Bool
  | .timeoutError => true
  | .playwrightError => true
  | .otherError => false

/-- What the loop does after the cycle body raised: `return` (the
monitor stops) or sleep 10 s and re-enter polling. -/
inductive LoopDisposition where
  | stop
  | retryAfterSleep
deriving DecidableEq

/-- The handler chain at src/main.py lines 207-212: a `PlaywrightError`
makes the loop `return`; any other exception is logged and the loop
sleeps 10 seconds and retries. -/
def handle_cycle_exception (e : PException) : LoopDisposition :=
  if is_playwright_error e then .stop else .retryAfterSleep

/-! ## Helper lemmas about takeLast -/

lemma takeLast_eq_self {n : Nat} {l : List String} (h : l.length ≤ n) :
    takeLast n l = l := by
  unfold takeLast
  have hz : l.length - n = 0 := by omega
  simp [hz]

lemma length_takeLast_le (n : Nat) (l : List String) :
    (takeLast n l).length ≤ n := by
  unfold takeLast
  simp only [List.length_drop]
  omega

/-- Re-truncating an already-truncated list after appending more entries
gives the same result as truncating the whole appended list: `takeLast n l`
is a suffix of `l` holding its last `min n (length l)` entries. -/
lemma takeLast_idem_append (n : Nat) (l l₂ : List String) :
    takeLast n (takeLast n l ++ l₂) = takeLast n (l ++ l₂) := by
  rcases Nat.le_total l.length n with h | h
  · rw [takeLast_eq_self h]
  · unfold takeLast
    have hlen : (l.drop (l.length - n)).length = n := by
      simp only [List.length_drop]; omega
    rw [List.drop_append_eq_append_drop, List.drop_append_eq_append_drop,
      List.drop_drop, hlen]
    have h₁ : l.length - n + ((l.drop (l.length - n) ++ l₂).length - n)
        = (l ++ l₂).length - n := by
      simp only [List.length_append, List.length_drop]; omega
    have h₂ : (l.drop (l.length - n) ++ l₂).length - n - n
        = (l ++ l₂).length - n - l.length := by
      simp only [List.length_append, List.length_drop]; omega
    rw [h₁, h₂]

/-- With a positive bound, the entry just appended always survives the
truncation. -/
lemma self_mem_takeLast {n : Nat} (h : 0 < n) (l : List String) (x : String) :
    x ∈ takeLast n (l ++ [x]) := by
  unfold takeLast
  rw [List.drop_append_eq_append_drop]
  have hz : (l ++ [x]).length - n - l.length = 0 := by
    simp only [List.length_append, List.length_singleton]; omega
  rw [hz]
  simp

/-- Folding `record_seen` (with succeeding writes) from an
already-truncated pair tracks the truncation of the concatenation. -/
lemma foldl_record_eq (m : Nat) (ids : List String) :
    ∀ s : List String,
      ids.foldl (record_seen m true) (takeLast m s, takeLast m s)
        = (takeLast m (s ++ ids), takeLast m (s ++ ids)) := by
  induction ids with
  | nil => intro s; simp
  | cons i rest ih =>
    intro s
    have hstep : record_seen m true (takeLast m s, takeLast m s) i
        = (takeLast m (s ++ [i]), takeLast m (s ++ [i])) := by
      simp [record_seen, save_seen_threads, takeLast_idem_append]
    rw [List.foldl_cons, hstep, ih (s ++ [i])]
    simp

/-! ## Claim theorems -/

/-- C2: every sequence of record operations on the SeenStore persists,
on each record, the truncation of the sequence to its last `maxSeen`
entries, so the persisted sequence after at least one record equals the
last `maxSeen` recorded-or-preexisting identifiers (most recent retained,
oldest evicted first) and has length at most `maxSeen`.  The source fixes
`maxSeen` to `MAX_SEEN_THREADS = 20`; the spec's `MAX_SEEN = 2` scenario
is the witness below. -/
theorem C2_persist_truncates (maxSeen : Nat) (seen₀ file₀ ids : List String)
    (hne : ids ≠ []) :
    (ids.foldl (record_seen maxSeen true) (seen₀, file₀)).2
        = takeLast maxSeen (seen₀ ++ ids)
    ∧ (ids.foldl (record_seen maxSeen true) (seen₀, file₀)).2.length ≤ maxSeen := by
  rcases ids with _ | ⟨i, rest⟩
  · exact absurd rfl hne
  · have hstep : record_seen maxSeen true (seen₀, file₀) i
        = (takeLast maxSeen (seen₀ ++ [i]), takeLast maxSeen (seen₀ ++ [i])) := by
      simp [record_seen, save_seen_threads]
    have hfold := foldl_record_eq maxSeen rest (seen₀ ++ [i])
    constructor
    · rw [List.foldl_cons, hstep, hfold]
      simp
    · rw [List.foldl_cons, hstep, hfold]
      simpa using length_takeLast_le maxSeen ((seen₀ ++ [i]) ++ rest)

/-- C2 witness: the spec scenario with `MAX_SEEN = 2` — recording
"1","2","3" from the empty store persists exactly ["2","3"]. -/
theorem C2_persist_truncates_witness :
    ((["1", "2", "3"] : List String).foldl (record_seen 2 true) ([], [])).2
      = ["2", "3"] := by
  have h := (C2_persist_truncates 2 [] [] ["1", "2", "3"] (by decide)).1
  rw [h]
  decide

/-- C6: `load_seen_threads` returns the empty sequence on a missing,
unreadable or malformed state file and never raises (it is a total
function of the file state); when the file exists and parses it returns
exactly the stored ordered sequence of identifiers. -/
theorem C6_load_never_fails :
    load_seen_threads FileState.absent = []
    ∧ load_seen_threads FileState.unreadable = []
    ∧ load_seen_threads FileState.malformed = []
    ∧ ∀ ids : List String, load_seen_threads (FileState.stored ids) = ids := by
  exact ⟨rfl, rfl, rfl, fun _ => rfl⟩

/-- C10: the persist step of a record truncates the caller's in-memory
sequence in place before the disk write, so after every record the
in-memory sequence is the last `maxSeen` of the appended sequence, has
length at most `maxSeen`, contains the id just recorded, and is the same
whether or not the durable write succeeded. -/
theorem C10_inmemory_truncated (maxSeen : Nat) (hpos : 0 < maxSeen)
    (writeOk : Bool) (st : List String × List String) (id : String) :
    (record_seen maxSeen writeOk st id).1 = takeLast maxSeen (st.1 ++ [id])
    ∧ (record_seen maxSeen writeOk st id).1.length ≤ maxSeen
    ∧ id ∈ (record_seen maxSeen writeOk st id).1
    ∧ (record_seen maxSeen writeOk st id).1 = (record_seen maxSeen true st id).1 := by
  refine ⟨rfl, ?_, ?_, rfl⟩
  · exact length_takeLast_le maxSeen (st.1 ++ [id])
  · exact self_mem_takeLast hpos st.1 id

/-- C10 witness: with bound 2 and a failing write, recording "3" over
in-memory ["1","2"] leaves the in-memory sequence ["2","3"]. -/
theorem C10_inmemory_truncated_witness :
    (record_seen 2 false (["1", "2"], ["1", "2"]) "3").1 = takeLast 2 (["1", "2"] ++ ["3"])
    ∧ (record_seen 2 false (["1", "2"], ["1", "2"]) "3").1.length ≤ 2
    ∧ "3" ∈ (record_seen 2 false (["1", "2"], ["1", "2"]) "3").1
    ∧ (record_seen 2 false (["1", "2"], ["1", "2"]) "3").1
        = (record_seen 2 true (["1", "2"], ["1", "2"]) "3").1 :=
  C10_inmemory_truncated 2 (by decide) false (["1", "2"], ["1", "2"]) "3"

/-- C3: a candidate whose resolved id is the excluded identifier is, for
every prior seen-store state, recorded as seen without any webhook send
attempt; the recording happens unconditionally — in particular also when
the id is already contained in the seen sequence, which shows the
exclusion branch runs before the dedup membership check. -/
theorem C3_excluded_suppressed (pyHash : String → Int) (rolePing : Option String)
    (st : MState) (c : CandidateInput) (td : ThreadData)
    (hex : extract_thread_data c.now c.el = some td)
    (hid : resolve_thread_id pyHash td = BLOCKED_THREAD_ID) :
    (process_thread pyHash rolePing st c).sent = st.sent
    ∧ (process_thread pyHash rolePing st c).seen
        = takeLast MAX_SEEN_THREADS (st.seen ++ [BLOCKED_THREAD_ID])
    ∧ BLOCKED_THREAD_ID ∈ (process_thread pyHash rolePing st c).seen := by
  have hp : process_thread pyHash rolePing st c
      = { seen := takeLast MAX_SEEN_THREADS (st.seen ++ [BLOCKED_THREAD_ID]),
          file := if c.writeOk
            then takeLast MAX_SEEN_THREADS (st.seen ++ [BLOCKED_THREAD_ID])
            else st.file,
          sent := st.sent } := by
    simp [process_thread, hex, hid, record_seen, save_seen_threads]
  rw [hp]
  exact ⟨rfl, rfl, self_mem_takeLast (by decide) st.seen BLOCKED_THREAD_ID⟩

def blockedCand : CandidateInput :=
  { el := { titleEl := some "Announcements", authorEl := some "mod",
            messageEl := some "rules", containerId := some BLOCKED_THREAD_ID,
            timeEl := some "2024-01-01", raises := false },
    now := "2024-01-01T00:00:00Z", net := SendResult.status 204, writeOk := true }

def blockedSt : MState :=
  { seen := [BLOCKED_THREAD_ID], file := [BLOCKED_THREAD_ID], sent := [] }

/-- C3 witness: the excluded thread is presented while already seen —
still no send attempt, and it is recorded again. -/
theorem C3_excluded_suppressed_witness :
    (process_thread (fun _ => 0) none blockedSt blockedCand).sent = blockedSt.sent
    ∧ (process_thread (fun _ => 0) none blockedSt blockedCand).seen
        = takeLast MAX_SEEN_THREADS (blockedSt.seen ++ [BLOCKED_THREAD_ID])
    ∧ BLOCKED_THREAD_ID ∈ (process_thread (fun _ => 0) none blockedSt blockedCand).seen :=
  C3_excluded_suppressed (fun _ => 0) none blockedSt blockedCand
    { id := some BLOCKED_THREAD_ID, title := "Announcements", author := "mod",
      content := "rules",
      url := DISCORD_FORUM_URL ++ "/threads/" ++ BLOCKED_THREAD_ID,
      timestamp := "2024-01-01" }
    (by decide) (by decide)

/-- C7: an unseen, non-excluded candidate triggers exactly one webhook
send attempt, after which its id is recorded in the seen store; and the
sequence of send attempts is the same no matter how the delivery went
(success status, failure status or raise) and no matter whether the
state-file write succeeds — the delivery outcome never propagates and
the item is not retried within the step. -/
theorem C7_send_once_then_record (pyHash : String → Int) (rolePing : Option String)
    (st : MState) (c : CandidateInput) (td : ThreadData)
    (hex : extract_thread_data c.now c.el = some td)
    (hnb : resolve_thread_id pyHash td ≠ BLOCKED_THREAD_ID)
    (hns : resolve_thread_id pyHash td ∉ st.seen) :
    (process_thread pyHash rolePing st c).sent
        = st.sent ++ [(resolve_thread_id pyHash td, post_new_thread_webhook rolePing td)]
    ∧ resolve_thread_id pyHash td ∈ (process_thread pyHash rolePing st c).seen
    ∧ ∀ (net' : SendResult) (writeOk' : Bool),
        (process_thread pyHash rolePing st
            { el := c.el, now := c.now, net := net', writeOk := writeOk' }).sent
          = (process_thread pyHash rolePing st c).sent := by
  have hp : ∀ (net' : SendResult) (w' : Bool),
      process_thread pyHash rolePing st
          { el := c.el, now := c.now, net := net', writeOk := w' }
        = { seen := takeLast MAX_SEEN_THREADS (st.seen ++ [resolve_thread_id pyHash td]),
            file := if w'
              then takeLast MAX_SEEN_THREADS (st.seen ++ [resolve_thread_id pyHash td])
              else st.file,
            sent := st.sent
              ++ [(resolve_thread_id pyHash td, post_new_thread_webhook rolePing td)] } := by
    intro net' w'
    simp [process_thread, hex, hnb, hns, record_seen, save_seen_threads]
  have hpc : process_thread pyHash rolePing st c
      = { seen := takeLast MAX_SEEN_THREADS (st.seen ++ [resolve_thread_id pyHash td]),
          file := if c.writeOk
            then takeLast MAX_SEEN_THREADS (st.seen ++ [resolve_thread_id pyHash td])
            else st.file,
          sent := st.sent
            ++ [(resolve_thread_id pyHash td, post_new_thread_webhook rolePing td)] } := by
    simp [process_thread, hex, hnb, hns, record_seen, save_seen_threads]
  refine ⟨by rw [hpc], ?_, ?_⟩
  · rw [hpc]
    exact self_mem_takeLast (by decide) st.seen (resolve_thread_id pyHash td)
  · intro net' w'
    rw [hp net' w', hpc]

def freshCand : CandidateInput :=
  { el := { titleEl := some "Hello", authorEl := some "bob",
            messageEl := some "hi", containerId := some "42",
            timeEl := none, raises := false },
    now := "T0", net := SendResult.raised, writeOk := false }

/-- C7 witness: a fresh candidate whose delivery raises and whose state
write fails — the send attempt is still made exactly once and the id is
still recorded in memory. -/
theorem C7_send_once_then_record_witness :
    (process_thread (fun _ => 0) none ⟨[], [], []⟩ freshCand).sent
        = [] ++ [("42",
            post_new_thread_webhook none
              { id := some "42", title := "Hello", author := "bob", content := "hi",
                url := DISCORD_FORUM_URL ++ "/threads/" ++ "42", timestamp := "T0" })]
    ∧ ("42" : String) ∈ (process_thread (fun _ => 0) none ⟨[], [], []⟩ freshCand).seen
    ∧ ∀ (net' : SendResult) (writeOk' : Bool),
        (process_thread (fun _ => 0) none ⟨[], [], []⟩
            { el := freshCand.el, now := freshCand.now, net := net', writeOk := writeOk' }).sent
          = (process_thread (fun _ => 0) none ⟨[], [], []⟩ freshCand).sent :=
  C7_send_once_then_record (fun _ => 0) none ⟨[], [], []⟩ freshCand
    { id := some "42", title := "Hello", author := "bob", content := "hi",
      url := DISCORD_FORUM_URL ++ "/threads/" ++ "42", timestamp := "T0" }
    (by decide) (by decide) (by decide)

/-- C8: two extracted records lacking a native id (absent or empty, both
falsy in Python) with identical url and title resolve, under the one
process-wide hash function, to the same fallback identifier. -/
theorem C8_fallback_id_stable (pyHash : String → Int) (td₁ td₂ : ThreadData)
    (h₁ : td₁.id = none ∨ td₁.id = some "")
    (h₂ : td₂.id = none ∨ td₂.id = some "")
    (hu : td₁.url = td₂.url) (ht : td₁.title = td₂.title) :
    resolve_thread_id pyHash td₁ = resolve_thread_id pyHash td₂ := by
  unfold resolve_thread_id
  rcases h₁ with h₁ | h₁ <;> rcases h₂ with h₂ | h₂ <;> simp [h₁, h₂, hu, ht]

/-- C8 witness: one record with an absent id and one with an empty id,
same url and title, distinct other fields. -/
theorem C8_fallback_id_stable_witness :
    resolve_thread_id (fun s => Int.ofNat s.length)
        { id := none, title := "A", author := "x", content := "",
          url := "u", timestamp := "t1" }
      = resolve_thread_id (fun s => Int.ofNat s.length)
        { id := some "", title := "A", author := "y", content := "c",
          url := "u", timestamp := "t2" } :=
  C8_fallback_id_stable (fun s => Int.ofNat s.length) _ _
    (Or.inl rfl) (Or.inr rfl) rfl rfl

/-- C9: a candidate whose extraction fails is skipped and only that
candidate: the cycle's outcome over any surrounding candidates equals
the outcome with the failing candidate removed, so every later candidate
(and, cycles being concatenations of candidate lists, every later cycle)
is processed exactly as it would otherwise be. -/
theorem C9_extract_failure_isolated (pyHash : String → Int) (rolePing : Option String)
    (pre post : List CandidateInput) (c : CandidateInput)
    (hfail : extract_thread_data c.now c.el = none) (st : MState) :
    run_cycle pyHash rolePing (pre ++ c :: post) st
      = run_cycle pyHash rolePing (pre ++ post) st := by
  have hid : ∀ s : MState, process_thread pyHash rolePing s c = s := by
    intro s
    simp [process_thread, hfail]
  simp [run_cycle, List.foldl_append, List.foldl_cons, hid]

def badCand : CandidateInput :=
  { el := { titleEl := none, authorEl := none, messageEl := none,
            containerId := none, timeEl := none, raises := true },
    now := "T", net := SendResult.status 200, writeOk := true }

/-- C9 witness: a raising candidate followed by a healthy one — the run
equals the run without the raising candidate. -/
theorem C9_extract_failure_isolated_witness :
    run_cycle (fun _ => 0) none ([] ++ badCand :: [freshCand]) ⟨[], [], []⟩
      = run_cycle (fun _ => 0) none ([] ++ [freshCand]) ⟨[], [], []⟩ :=
  C9_extract_failure_isolated (fun _ => 0) none [] [freshCand] badCand rfl ⟨[], [], []⟩

/-- C4: a selector timeout — playwright's TimeoutError being a subclass
of the imported PlaywrightError — is matched by the `except
PlaywrightError` handler, which makes `forum_monitor_loop` return: the
loop terminates instead of sleeping the 10-second backoff and retrying. -/
theorem C4_timeout_stops_loop :
    handle_cycle_exception PException.timeoutError = LoopDisposition.stop := rfl

def elMissingFields : ThreadElement :=
  { titleEl := none, authorEl := none, messageEl := none,
    containerId := some "7", timeEl := some "t", raises := false }

/-- C5 counterexample: a record whose title selector matches nothing is
defaulted to the sentinel "Untitled Thread", not "Untitled" as the claim
states. -/
theorem C5_counterexample :
    (extract_thread_data "T" elMissingFields).map ThreadData.title
        = some "Untitled Thread"
    ∧ (extract_thread_data "T" elMissingFields).map ThreadData.title
        ≠ some "Untitled" := by
  decide

/-- C5 (amended): for every raw record whose extraction does not raise,
the normalizer produces an item (extraction is not aborted), and each
display field that cannot be located is independently defaulted to its
sentinel: "Untitled Thread" for a missing title, "Unknown" for a missing
author, "" for a missing content preview. -/
theorem C5_missing_fields_defaulted (now : String) (el : ThreadElement)
    (hr : el.raises = false) :
    (extract_thread_data now el).isSome = true
    ∧ (el.titleEl = none →
        (extract_thread_data now el).map ThreadData.title = some "Untitled Thread")
    ∧ (el.authorEl = none →
        (extract_thread_data now el).map ThreadData.author = some "Unknown")
    ∧ (el.messageEl = none →
        (extract_thread_data now el).map ThreadData.content = some "") := by
  refine ⟨?_, ?_, ?_, ?_⟩
  · simp [extract_thread_data, hr]
  · intro ht
    have hstrip : strip "Untitled Thread" = "Untitled Thread" := by decide
    simp [extract_thread_data, hr, ht, hstrip]
  · intro ha
    have hstrip : strip "Unknown" = "Unknown" := by decide
    simp [extract_thread_data, hr, ha, hstrip]
  · intro hm
    have hstrip : strip "" = "" := by decide
    simp [extract_thread_data, hr, hm, hstrip]

def elNoAuthor : ThreadElement :=
  { titleEl := some "Hi", authorEl := none, messageEl := some "m",
    containerId := some "9", timeEl := none, raises := false }

/-- C5 witness: the per-field defaults exercised concretely — once on an
element where only the author selector fails, and once on an element
missing title and preview as well. -/
theorem C5_missing_fields_defaulted_witness :
    (extract_thread_data "T" elNoAuthor).isSome = true
    ∧ (extract_thread_data "T" elNoAuthor).map ThreadData.author = some "Unknown"
    ∧ (extract_thread_data "T" elMissingFields).map ThreadData.title
        = some "Untitled Thread"
    ∧ (extract_thread_data "T" elMissingFields).map ThreadData.content = some "" :=
  ⟨(C5_missing_fields_defaulted "T" elNoAuthor rfl).1,
   (C5_missing_fields_defaulted "T" elNoAuthor rfl).2.2.1 rfl,
   (C5_missing_fields_defaulted "T" elMissingFields rfl).2.1 rfl,
   (C5_missing_fields_defaulted "T" elMissingFields rfl).2.2.2 rfl⟩

/-! ## Dedup counting (C1) -/

lemma presentsId_cons (pyHash : String → Int) (c : CandidateInput)
    (rest : List CandidateInput) (tid : String) :
    presentsId pyHash (c :: rest) tid
      = ((candId pyHash c == some tid) || presentsId pyHash rest tid) := by
  simp [presentsId]

lemma countSent_snoc (seen file : List String)
    (sent : List (String × WebhookPayload)) (x : String) (p : WebhookPayload)
    (tid : String) :
    countSent ⟨seen, file, sent ++ [(x, p)]⟩ tid
      = countSent ⟨seen, file, sent⟩ tid + (if x = tid then 1 else 0) := by
  by_cases h : x = tid <;> simp [countSent, List.count_append, h]
  exact List.count_eq_zero.mpr (by simp [Ne.symm h])

/-- How the number of send attempts for a fixed id evolves over a run,
provided the seen list can never overflow the truncation bound (so no id
is evicted): it grows by exactly one the first time the id is presented
while unseen, and never again. -/
lemma run_cycle_count (pyHash : String → Int) (rolePing : Option String)
    (tid : String) (hblk : tid ≠ BLOCKED_THREAD_ID) :
    ∀ (inputs : List CandidateInput) (st : MState),
      st.seen.length + inputs.length ≤ MAX_SEEN_THREADS →
      countSent (run_cycle pyHash rolePing inputs st) tid
        = countSent st tid
          + (if tid ∈ st.seen then 0
             else if presentsId pyHash inputs tid then 1 else 0) := by
  intro inputs
  induction inputs with
  | nil =>
    intro st _
    simp [run_cycle, presentsId]
  | cons c rest ih =>
    intro st hcap
    simp only [List.length_cons] at hcap
    have hrun : run_cycle pyHash rolePing (c :: rest) st
        = run_cycle pyHash rolePing rest (process_thread pyHash rolePing st c) := rfl
    rw [hrun, presentsId_cons]
    cases hex : extract_thread_data c.now c.el with
    | none =>
      have hp : process_thread pyHash rolePing st c = st := by
        simp [process_thread, hex]
      have hc : candId pyHash c = none := by simp [candId, hex]
      rw [hp, ih st (by omega), hc]
      simp
    | some td =>
      have hc : candId pyHash c = some (resolve_thread_id pyHash td) := by
        simp [candId, hex]
      have htr : takeLast MAX_SEEN_THREADS (st.seen ++ [resolve_thread_id pyHash td])
          = st.seen ++ [resolve_thread_id pyHash td] :=
        takeLast_eq_self
          (by simp only [List.length_append, List.length_singleton]; omega)
      by_cases hb : resolve_thread_id pyHash td = BLOCKED_THREAD_ID
      · have hp : process_thread pyHash rolePing st c
            = { seen := st.seen ++ [BLOCKED_THREAD_ID],
                file := if c.writeOk then st.seen ++ [BLOCKED_THREAD_ID] else st.file,
                sent := st.sent } := by
          have htr' : takeLast MAX_SEEN_THREADS (st.seen ++ [BLOCKED_THREAD_ID])
              = st.seen ++ [BLOCKED_THREAD_ID] := hb ▸ htr
          simp [process_thread, hex, hb, record_seen, save_seen_threads, htr']
        rw [hp, ih _ (by simp only [List.length_append, List.length_singleton]; omega)]
        have hmem' : (tid ∈ st.seen ++ [BLOCKED_THREAD_ID]) ↔ tid ∈ st.seen := by
          simp [List.mem_append, hblk]
        have hcid : (candId pyHash c == some tid) = false := by
          rw [hc, hb]
          exact beq_eq_false_iff_ne.mpr (fun h => hblk (Option.some.inj h).symm)
        simp only [countSent, hcid, Bool.false_or]
        rw [if_congr hmem' rfl rfl]
      · by_cases hmem : resolve_thread_id pyHash td ∈ st.seen
        · have hp : process_thread pyHash rolePing st c = st := by
            simp [process_thread, hex, hb, hmem]
          rw [hp, ih st (by omega)]
          by_cases htid : tid = resolve_thread_id pyHash td
          · have hts : tid ∈ st.seen := htid ▸ hmem
            simp [hts]
          · have hcid : (candId pyHash c == some tid) = false := by
              rw [hc]
              exact beq_eq_false_iff_ne.mpr (fun h => htid (Option.some.inj h).symm)
            rw [hcid]
            simp
        · have hp : process_thread pyHash rolePing st c
              = { seen := st.seen ++ [resolve_thread_id pyHash td],
                  file := if c.writeOk
                    then st.seen ++ [resolve_thread_id pyHash td]
                    else st.file,
                  sent := st.sent ++ [(resolve_thread_id pyHash td,
                    post_new_thread_webhook rolePing td)] } := by
            simp [process_thread, hex, hb, hmem, record_seen, save_seen_threads, htr]
          rw [hp, ih _ (by simp only [List.length_append, List.length_singleton]; omega)]
          rw [countSent_snoc]
          by_cases htid : tid = resolve_thread_id pyHash td
          · have hts : tid ∈ st.seen ++ [resolve_thread_id pyHash td] := by
              simp [htid]
            have hcid : (candId pyHash c == some tid) = true := by
              rw [hc, htid]
              exact beq_self_eq_true _
            have hns : ¬ tid ∈ st.seen := fun h => hmem (htid ▸ h)
            simp [hts, hcid, hns, htid, countSent, hmem, hc]
          · have hts : (tid ∈ st.seen ++ [resolve_thread_id pyHash td]) ↔ tid ∈ st.seen := by
              simp [List.mem_append, htid]
            have hcid : (candId pyHash c == some tid) = false := by
              rw [hc]
              exact beq_eq_false_iff_ne.mpr (fun h => htid (Option.some.inj h).symm)
            have hne : (if resolve_thread_id pyHash td = tid then 1 else 0) = 0 :=
              if_neg (fun h => htid h.symm)
            rw [hcid, hne, if_congr hts rfl rfl]
            simp [countSent]

/-- C1 (amended): a presented id is sent exactly one webhook as long as
it cannot be evicted from the seen sequence — here guaranteed by the run
(initial seen list plus all candidates) fitting within the
`MAX_SEEN_THREADS` truncation bound.  Without that bound the claim
fails: see the counterexample, where an id evicted by twenty later
records is re-notified. -/
theorem C1_notified_once_if_unevicted (pyHash : String → Int)
    (rolePing : Option String) (inputs : List CandidateInput)
    (seen₀ file₀ : List String) (tid : String)
    (hcap : seen₀.length + inputs.length ≤ MAX_SEEN_THREADS)
    (hblk : tid ≠ BLOCKED_THREAD_ID) (hnew : tid ∉ seen₀)
    (hpres : presentsId pyHash inputs tid = true) :
    countSent (run_cycle pyHash rolePing inputs ⟨seen₀, file₀, []⟩) tid = 1 := by
  have h := run_cycle_count pyHash rolePing tid hblk inputs ⟨seen₀, file₀, []⟩ hcap
  rw [h]
  simp [countSent, hnew, hpres]

def okCand (tid : String) : CandidateInput :=
  { el := { titleEl := some "T", authorEl := some "U", messageEl := some "m",
            containerId := some tid, timeEl := some "ts", raises := false },
    now := "now", net := SendResult.status 204, writeOk := true }

/-- C1 witness: the spec scenario — the same id "5" presented twice in
one cycle from the empty store is sent exactly one webhook. -/
theorem C1_notified_once_if_unevicted_witness :
    countSent (run_cycle (fun _ => 0) none [okCand "5", okCand "5"] ⟨[], [], []⟩) "5"
      = 1 :=
  C1_notified_once_if_unevicted (fun _ => 0) none [okCand "5", okCand "5"] [] [] "5"
    (by decide) (by decide) (by decide) (by decide)

def fillerIds : List String :=
  ["f01", "f02", "f03", "f04", "f05", "f06", "f07", "f08", "f09", "f10",
   "f11", "f12", "f13", "f14", "f15", "f16", "f17", "f18", "f19", "f20"]

def evictionRun : List CandidateInput :=
  okCand "A" :: (fillerIds.map okCand ++ [okCand "A"])

/-- C1 counterexample: the claim as stated fails.  Id "A" is presented,
then twenty distinct ids are presented (evicting "A" from the
20-bounded seen sequence), then "A" is presented again: two webhooks are
sent for "A", not exactly one. -/
theorem C1_counterexample :
    countSent (run_cycle (fun _ => 0) none evictionRun ⟨[], [], []⟩) "A" = 2 := by
  decide

end RaidPing
